import Mathlib

/-!
Verification of the medWatcher replica-synchronization and hierarchical-search
core against its natural-language specification.

The definitions below are a shallow embedding of the Python sources under
`backend/`: pure computations become Lean functions, the stateful
synchronization and mutation paths become explicit state-passing functions,
and machine floats over distances and clock readings are modelled as exact
rationals.  Each definition carries a note naming the Python function it
embeds.
-/

namespace MedWatcher

/-! ## Relevance scoring (hierarchical_search.py, `HierarchicalSearch.search`)

`relevance = max(0, 1 - (distance / 2))` followed by `round(relevance, 3)`
(Python's `round` is round-half-to-even).  Distances are ChromaDB L2
distances (non-negative reals); we model them as rationals. -/

/-- Embeds `relevance = max(0, 1 - (distance / 2))` — hierarchical_search.py line 136. -/
def relevance (distance : ℚ) : ℚ := max 0 (1 - distance / 2)

/-- Round-half-to-even to the nearest integer (the rounding used by Python's
built-in `round`). -/
def rhe (q : ℚ) : ℤ :=
  if q - ⌊q⌋ < 1/2 then ⌊q⌋
  else if 1/2 < q - ⌊q⌋ then ⌊q⌋ + 1
  else if Even ⌊q⌋ then ⌊q⌋ else ⌊q⌋ + 1

/-- Embeds `round(x, 3)`: round to three decimal places, half to even. -/
def round3 (q : ℚ) : ℚ := (rhe (q * 1000) : ℚ) / 1000

/-- The stored relevance: `relevance_score=round(relevance, 3)`
(hierarchical_search.py line 170). -/
def relevance_score (distance : ℚ) : ℚ := round3 (relevance distance)

theorem relevance_nonneg (d : ℚ) : 0 ≤ relevance d := le_max_left 0 _

theorem relevance_le_one {d : ℚ} (hd : 0 ≤ d) : relevance d ≤ 1 := by
  unfold relevance
  have h2 : 1 - d / 2 ≤ 1 := by linarith
  exact max_le (by norm_num) h2

theorem relevance_antitone {a b : ℚ} (h : a ≤ b) : relevance b ≤ relevance a := by
  unfold relevance
  exact max_le_max le_rfl (by linarith)

theorem rhe_le (q : ℚ) : rhe q ≤ ⌊q⌋ + 1 := by
  unfold rhe
  split_ifs <;> omega

theorem le_rhe (q : ℚ) : ⌊q⌋ ≤ rhe q := by
  unfold rhe
  split_ifs <;> omega

theorem rhe_mono {x y : ℚ} (h : x ≤ y) : rhe x ≤ rhe y := by
  have hf : ⌊x⌋ ≤ ⌊y⌋ := Int.floor_le_floor h
  rcases lt_or_eq_of_le hf with hlt | heq
  · calc rhe x ≤ ⌊x⌋ + 1 := rhe_le x
      _ ≤ ⌊y⌋ := by omega
      _ ≤ rhe y := le_rhe y
  · unfold rhe
    rw [← heq]
    have hfr : x - (⌊x⌋ : ℚ) ≤ y - (⌊x⌋ : ℚ) := by linarith
    split_ifs <;> first
      | omega
      | (exfalso; linarith)

theorem round3_mono {x y : ℚ} (h : x ≤ y) : round3 x ≤ round3 y := by
  unfold round3
  have := rhe_mono (show x * 1000 ≤ y * 1000 by linarith)
  have hc : ((rhe (x * 1000) : ℚ)) ≤ ((rhe (y * 1000) : ℚ)) := by exact_mod_cast this
  linarith

theorem round3_nonneg {q : ℚ} (hq : 0 ≤ q) : 0 ≤ round3 q := by
  unfold round3
  have h0 : (0 : ℤ) ≤ ⌊q * 1000⌋ := by
    have : (0 : ℚ) ≤ q * 1000 := by linarith
    exact Int.floor_nonneg.mpr this
  have := le_rhe (q * 1000)
  have hz : (0 : ℤ) ≤ rhe (q * 1000) := le_trans h0 this
  have : (0 : ℚ) ≤ (rhe (q * 1000) : ℚ) := by exact_mod_cast hz
  linarith

theorem round3_le_one {q : ℚ} (hq : q ≤ 1) : round3 q ≤ 1 := by
  unfold round3
  have hm : q * 1000 ≤ 1000 := by linarith
  have hfl : ⌊q * 1000⌋ ≤ 1000 := by
    have : ⌊q * 1000⌋ ≤ ⌊(1000 : ℚ)⌋ := Int.floor_le_floor hm
    simpa using this
  rcases lt_or_eq_of_le hfl with hlt | heq
  · have := rhe_le (q * 1000)
    have hz : rhe (q * 1000) ≤ 1000 := by omega
    have : (rhe (q * 1000) : ℚ) ≤ 1000 := by exact_mod_cast hz
    linarith
  · -- floor = 1000 forces q * 1000 = 1000, fractional part 0, so rhe = 1000
    have hge : (1000 : ℚ) ≤ q * 1000 := by
      have := Int.floor_le (q * 1000)
      rw [heq] at this
      exact_mod_cast this
    have hexact : q * 1000 = 1000 := le_antisymm hm hge
    unfold rhe
    rw [hexact]
    norm_num

/-! ## Text chunking (content_processor.py, `ContentProcessor._chunk_text`)

Text is modelled as a list of characters (`Str`).  `pyStrip` is Python's
`str.strip()`, `pySlice` is `text[a:b]`, `rfindDot` is
`text.rfind('.', a, b)`. -/

/-- Python strings, modelled character by character. -/
abbrev Str := List Char

/-- Embeds `str.strip()`: drop leading and trailing whitespace. -/
def pyStrip (s : Str) : Str :=
  ((s.dropWhile Char.isWhitespace).reverse.dropWhile Char.isWhitespace).reverse

/-- Embeds `text[a:b]` for `0 ≤ a ≤ b` (Python clamps out-of-range bounds). -/
def pySlice (s : Str) (a b : Nat) : Str := (s.take b).drop a

/-- Embeds `text.rfind('.', a, b)`: highest index `i` with `a ≤ i < b` and
`text[i] = '.'`, if any. -/
def rfindDot (s : Str) (a b : Nat) : Option Nat :=
  ((List.range s.length).filter
    (fun i => decide (a ≤ i) && decide (i < b) && (s.getD i ' ' == '.'))).getLast?

/-- One iteration of the `_chunk_text` loop: the `end` cursor after the
sentence-boundary adjustment (content_processor.py lines 137-144). -/
def chunk_next_end (text : Str) (cs start : Nat) : Nat :=
  if start + cs < text.length then
    match rfindDot text start (start + cs) with
    | some j => if start + cs / 2 < j then j + 1 else start + cs
    | none => start + cs
  else start + cs

theorem chunk_next_end_ge (text : Str) (cs start : Nat) :
    start + min (cs / 2 + 2) cs ≤ chunk_next_end text cs start := by
  unfold chunk_next_end
  split
  · rcases hfind : rfindDot text start (start + cs) with _ | j
    · simp only [hfind]; omega
    · simp only [hfind]
      split <;> omega
  · omega

/-- The `while start < len(text)` loop of `_chunk_text`
(content_processor.py lines 133-151).  The two proof arguments record the
conditions on the chunking parameters under which the loop terminates;
both hold for the parameters used in the pipeline (`chunk_size ∈ {500,1000}`,
`overlap = 100`). -/
def chunk_loop (text : Str) (cs ov : Nat) (hcs : ov < cs) (hov : ov ≤ cs / 2 + 1)
    (start : Nat) : List Str :=
  if h : start < text.length then
    let c := pyStrip (pySlice text start (chunk_next_end text cs start))
    if c.isEmpty then chunk_loop text cs ov hcs hov (chunk_next_end text cs start - ov)
    else c :: chunk_loop text cs ov hcs hov (chunk_next_end text cs start - ov)
  else []
termination_by text.length - start
decreasing_by
  all_goals
    have hge := chunk_next_end_ge text cs start
    omega

/-- Embeds `ContentProcessor._chunk_text` (content_processor.py lines 113-151). -/
def chunk_text (text : Str) (cs ov : Nat) (hcs : ov < cs) (hov : ov ≤ cs / 2 + 1) :
    List Str :=
  if text.length ≤ cs then [text]
  else chunk_loop text cs ov hcs hov 0

theorem chunk_loop_nonempty (text : Str) (cs ov : Nat) (hcs : ov < cs)
    (hov : ov ≤ cs / 2 + 1) (start : Nat) :
    ∀ c ∈ chunk_loop text cs ov hcs hov start, c ≠ [] := by
  induction start using chunk_loop.induct text cs ov hcs hov with
  | case1 s hs c hc ih =>
    intro x hx
    rw [chunk_loop] at hx
    simp only [dif_pos hs, if_pos hc] at hx
    exact ih x hx
  | case2 s hs c hc ih =>
    intro x hx
    rw [chunk_loop] at hx
    simp only [dif_pos hs, if_neg hc] at hx
    rcases List.mem_cons.mp hx with hx1 | hx1
    · subst hx1
      simpa [List.isEmpty_iff] using hc
    · exact ih x hx1
  | case3 s hs =>
    intro x hx
    rw [chunk_loop] at hx
    simp [dif_neg hs] at hx

/-! ## Content IDs and chunk IDs (content_processor.py)

`_slugify` lowercases, strips characters outside `[\w\s-]`, collapses runs
of hyphens/whitespace into `_`, and truncates to 50 characters.  Chunk IDs
are built as `f"{type}_{self._slugify(content_id)}_chunk{i}"`
(process_image line 240, process_audio line 407, process_drawing line 512,
process_note line 589). -/

/-- Character class `\w` of Python's `re` (ASCII view): letters, digits, `_`. -/
def isWordChar (c : Char) : Bool := c.isAlphanum || c == '_'

/-- Auxiliary pass for `re.sub(r'[-\s]+', '_', text)`: collapse each maximal
run of hyphens/whitespace into a single underscore. -/
def collapseRunsAux : Bool → Str → Str
  | _, [] => []
  | inRun, c :: cs =>
    if c == '-' || c.isWhitespace then
      if inRun then collapseRunsAux true cs else '_' :: collapseRunsAux true cs
    else c :: collapseRunsAux false cs

/-- Embeds `ContentProcessor._slugify` (content_processor.py lines 94-99). -/
def py_slugify (s : Str) : Str :=
  (collapseRunsAux false
    ((s.map Char.toLower).filter
      (fun c => isWordChar c || c.isWhitespace || c == '-'))).take 50

/-- Chunk ID as generated at creation time:
`f"{ctype}_{slugify(content_id)}_chunk{i}"`. -/
def make_chunk_id (ctype content_id : String) (i : Nat) : String :=
  ctype ++ "_" ++ String.mk (py_slugify content_id.data) ++ "_chunk" ++ toString i

/-! ## Multimodal indexer state (multimodal_indexer.py, `MultimodalIndexer`)

Local state touched by `index_content` and `delete_content`: the chunk JSON
files in the per-type chunks directory, the content files, the
`summary.json` item list, and the ChromaDB collection (a list of chunk IDs).
Remote (GCS) effects are external and carry no local state. -/

/-- One chunk JSON file on disk: its file name and the
`metadata.filename` recorded inside it. -/
structure ChunkFile where
  name : String
  dataFilename : String
deriving DecidableEq, Repr

/-- Local state of the multimodal indexer. -/
structure IndexerState where
  chunkFiles : List ChunkFile
  contentFiles : List String
  summaryItems : List (String × Nat)
  chroma : List String
deriving DecidableEq, Repr

/-- Match of the glob `f"{content_id}_chunk*.json"` used by `delete_content`
(multimodal_indexer.py line 439). -/
def matchesChunkGlob (content_id : String) (fname : String) : Bool :=
  (content_id ++ "_chunk").data.isPrefixOf fname.data
    && ".json".data.isSuffixOf fname.data

/-- Embeds `MultimodalIndexer.delete_content`
(multimodal_indexer.py lines 403-570).  Steps 2-3 (GCS deletions) are
external side effects with no local state; steps 4-6 delete the matched
chunk files, the content file named inside the first matched chunk, and the
content's summary entry.  Step 7 then calls
`self.vector_store.delete_by_id(chunk_id)` — but `ChromaVectorStore`
(vector_store.py lines 62-138) defines no method `delete_by_id`, so the
first such call raises `AttributeError`; the surrounding `except` handler
(line 566) catches it and the function returns `False` with ChromaDB
untouched. -/
def delete_content (content_id : String) (s : IndexerState) : IndexerState × Bool :=
  let chunk_files := s.chunkFiles.filter (fun f => matchesChunkGlob content_id f.name)
  if chunk_files.isEmpty then (s, false)
  else
    let files1 := s.chunkFiles.filter (fun f => !(matchesChunkGlob content_id f.name))
    let fname := ((chunk_files.head?).map ChunkFile.dataFilename).getD ""
    let contents1 := s.contentFiles.filter (fun g => g != fname)
    let summary1 := s.summaryItems.filter (fun it => it.1 != content_id)
    ({ s with chunkFiles := files1, contentFiles := contents1,
              summaryItems := summary1 }, false)

/-- Embeds `MultimodalIndexer.index_content`
(multimodal_indexer.py lines 347-401).  The five booleans are the outcomes
of the fallible steps: saving chunk files, updating `summary.json`,
indexing into ChromaDB, mirroring content/chunks to GCS (step 4), and the
full ChromaDB re-upload (step 5).  A failure in steps 1-3 aborts with
`False`; the outcomes of steps 4 and 5 only produce warnings and affect
neither the local state nor the return value (step 6, the singleton reload,
is wrapped in its own `try`). -/
def index_content (chunks : List String) (content_id contentFilename : String)
    (saveOk summaryOk chromaOk gcsOk chromaUploadOk : Bool)
    (s : IndexerState) : IndexerState × Bool :=
  if !saveOk then (s, false)
  else
    let s1 := { s with chunkFiles :=
      s.chunkFiles ++ chunks.map (fun c => ⟨c ++ ".json", contentFilename⟩) }
    if !summaryOk then (s1, false)
    else
      let s2 := { s1 with summaryItems := s1.summaryItems ++ [(content_id, chunks.length)] }
      if !chromaOk then (s2, false)
      else
        let s3 := { s2 with chroma := s2.chroma ++ chunks }
        (s3, true)

/-! ## Version markers (multimodal_indexer.py lines 332-336,
library_manager.py lines 390-394)

Every mutation that re-uploads the index writes
`version_marker = f"{int(time.time())}"` to `version.txt` locally and on
GCS.  The clock reading is modelled as an exact rational; `int` truncates
toward zero. -/

/-- Python's `int()` on a real number: truncation toward zero. -/
def pyInt (t : ℚ) : ℤ := if 0 ≤ t then ⌊t⌋ else -⌊-t⌋

/-- The version-marker value written by a mutation whose clock reads `t`
seconds: `f"{int(time.time())}"` as an integer. -/
def version_marker (t : ℚ) : ℤ := pyInt t

theorem version_marker_mono {t t' : ℚ} (h0 : 0 ≤ t) (h : t ≤ t') :
    version_marker t ≤ version_marker t' := by
  unfold version_marker pyInt
  rw [if_pos h0, if_pos (le_trans h0 h)]
  exact Int.floor_le_floor h

theorem version_marker_strict {t t' : ℚ} (h0 : 0 ≤ t) (h : t + 1 ≤ t') :
    version_marker t < version_marker t' := by
  unfold version_marker pyInt
  rw [if_pos h0, if_pos (by linarith : (0:ℚ) ≤ t')]
  have h1 : ⌊t + 1⌋ ≤ ⌊t'⌋ := Int.floor_le_floor h
  rw [Int.floor_add_one] at h1
  omega

/-! ## Replica synchronization (hierarchical_search.py lines 26-84,
reload_from_gcs.py)

State visible to the sync path: the rate-limit stamp `last_gcs_check`, the
on-disk ChromaDB directory (`disk`, a list of chunk IDs; `[]` after
`rmtree` + fresh `mkdir`), the in-memory replica served by the search
engine singleton (`active`), and the locally recorded version token
(`/app/data/version.txt`, default `"0"` when missing).

Environment of one check: whether `K_SERVICE` is set (Cloud Run), the
current clock, the outcome of `gsutil cat .../version.txt` (`none` when the
command fails or times out), and the outcome of the snapshot download
(`some snap` when `gsutil rsync` succeeds, `none` when it fails mid-way). -/

/-- Environment (external world) of one staleness check. -/
structure SyncEnv where
  kService : Bool
  now : ℚ
  remoteVersion : Option String
  download : Option (List String)
deriving DecidableEq, Repr

/-- Process-local state touched by the sync path. -/
structure SyncState where
  lastCheck : Option ℚ
  disk : List String
  active : List String
  localVersion : String
deriving DecidableEq, Repr

/-- Outcome of one check: the new state, whether the remote version marker
was read, and whether a local/remote version comparison took place. -/
structure SyncResult where
  state : SyncState
  remoteRead : Bool
  compared : Bool
deriving DecidableEq, Repr

/-- Value of `self.gcs_check_interval` (hierarchical_search.py line 23). -/
def gcs_check_interval : ℚ := 5

/-- Embeds `HierarchicalSearch._should_check_gcs`
(hierarchical_search.py lines 26-30). -/
def should_check_gcs (now : ℚ) (s : SyncState) : Bool :=
  match s.lastCheck with
  | none => true
  | some t => decide (gcs_check_interval ≤ now - t)

/-- Embeds `reload_chromadb_from_gcs` (reload_from_gcs.py lines 9-54): the
old ChromaDB directory is removed (`shutil.rmtree`) and recreated empty
BEFORE the download is attempted; on download failure the function returns
`False` with the directory left empty. -/
def reload_chromadb_from_gcs (download : Option (List String)) (s : SyncState) :
    SyncState × Bool :=
  let s1 : SyncState := { s with disk := [] }
  match download with
  | some snap => ({ s1 with disk := snap }, true)
  | none => (s1, false)

/-- Embeds `trigger_vector_store_reload` (reload_from_gcs.py lines 56-76):
reset the singleton and re-open the replica from disk. -/
def trigger_vector_store_reload (s : SyncState) : SyncState × Bool :=
  ({ s with active := s.disk }, true)

/-- Embeds `full_reload` (reload_from_gcs.py lines 78-98). -/
def full_reload (download : Option (List String)) (s : SyncState) : SyncState × Bool :=
  let r := reload_chromadb_from_gcs download s
  if r.2 then trigger_vector_store_reload r.1 else (r.1, false)

/-- Embeds `HierarchicalSearch._reload_from_gcs_if_needed`
(hierarchical_search.py lines 37-84): return immediately unless `K_SERVICE`
is set; rate-limit passive checks; stamp `last_gcs_check`; read the remote
`version.txt` (returning silently when the read fails); compare with the
local token; on difference run `full_reload`, recording the new token
locally only when the reload reports success. -/
def reload_from_gcs_if_needed (env : SyncEnv) (s : SyncState) : SyncResult :=
  if !env.kService then ⟨s, false, false⟩
  else if !should_check_gcs env.now s then ⟨s, false, false⟩
  else
    let s1 : SyncState := { s with lastCheck := some env.now }
    match env.remoteVersion with
    | none => ⟨s1, true, false⟩
    | some gv =>
      if gv ≠ s1.localVersion then
        let r := full_reload env.download s1
        if r.2 then ⟨{ r.1 with localVersion := gv }, true, true⟩
        else ⟨r.1, true, true⟩
      else ⟨s1, true, true⟩

/-- Embeds `HierarchicalSearch.force_reload`
(hierarchical_search.py lines 32-35): reset the rate limit, then run the
same check. -/
def force_reload (env : SyncEnv) (s : SyncState) : SyncResult :=
  reload_from_gcs_if_needed env { s with lastCheck := none }

theorem reload_failed_keeps_active_and_token (env : SyncEnv) (s : SyncState)
    (hdl : env.download = none) :
    (reload_from_gcs_if_needed env s).state.active = s.active ∧
    (reload_from_gcs_if_needed env s).state.localVersion = s.localVersion := by
  unfold reload_from_gcs_if_needed full_reload reload_chromadb_from_gcs
    trigger_vector_store_reload
  rw [hdl]
  split
  · exact ⟨rfl, rfl⟩
  · split
    · exact ⟨rfl, rfl⟩
    · rcases env.remoteVersion with _ | gv
      · exact ⟨rfl, rfl⟩
      · simp only
        split
        · exact ⟨rfl, rfl⟩
        · exact ⟨rfl, rfl⟩

/-! ## Search pipeline (hierarchical_search.py, `HierarchicalSearch.search`,
vector_store.py, `ChromaVectorStore.search`)

A candidate is one neighbor returned by the vector store: its document ID
and its L2 distance.  The display-only fields of `TopicResult` (hierarchy
string, preview, page range, table/figure references) are carried through
unchanged from metadata and play no role in ordering, count, or score; the
embedded result keeps the ID and the stored score.

`ChromaVectorStore.search` queries ChromaDB with `n_results=top_k`;
ChromaDB returns the `min(top_k, collection size)` nearest neighbors,
closest first.  Python's `list.sort(key=..., reverse=True)` is a stable
sort; `sortDesc` below is a stable insertion sort by descending score and
therefore computes exactly the same list. -/

/-- One raw neighbor from the vector store. -/
structure Candidate where
  id : String
  distance : ℚ
deriving DecidableEq, Repr

/-- Embedded search result (`TopicResult` restricted to identity and
score). -/
structure TopicResult where
  topic_id : String
  relevance_score : ℚ
deriving DecidableEq, Repr

/-- Stable insertion (ascending by distance) — models ChromaDB's
nearest-first return order. -/
def insertAsc (x : Candidate) : List Candidate → List Candidate
  | [] => [x]
  | y :: ys => if y.distance < x.distance then y :: insertAsc x ys else x :: y :: ys

/-- Candidates ordered by ascending distance. -/
def sortAsc : List Candidate → List Candidate
  | [] => []
  | x :: xs => insertAsc x (sortAsc xs)

/-- Embeds `ChromaVectorStore.search` (vector_store.py lines 120-129) /
`collection.query(n_results=top_k)`: the `min(top_k, size)` nearest
neighbors, closest first. -/
def vector_store_search (index : List Candidate) (top_k : Nat) : List Candidate :=
  (sortAsc index).take top_k

/-- Conversion of one neighbor into a result
(hierarchical_search.py lines 136-178). -/
def toResult (c : Candidate) : TopicResult :=
  ⟨c.id, relevance_score c.distance⟩

/-- Stable insertion by descending `relevance_score`: an element is placed
after every earlier element with a strictly greater score and before the
first element with a smaller-or-equal score. -/
def insertDesc (x : TopicResult) : List TopicResult → List TopicResult
  | [] => [x]
  | y :: ys =>
    if x.relevance_score < y.relevance_score then y :: insertDesc x ys
    else x :: y :: ys

/-- Embeds `results.sort(key=lambda x: x.relevance_score, reverse=True)`
(hierarchical_search.py line 181): Python's stable descending sort. -/
def sortDesc : List TopicResult → List TopicResult
  | [] => []
  | x :: xs => insertDesc x (sortDesc xs)

/-- Embeds `HierarchicalSearch.search` (hierarchical_search.py
lines 97-188) after the staleness check: over-fetch `2 × max_results`
neighbors, score them, sort by relevance descending, truncate to
`max_results`, and return together with the elapsed wall-clock
milliseconds. -/
def search (index : List Candidate) (max_results : Nat) (elapsed_ms : Nat) :
    List TopicResult × Nat :=
  let raw := vector_store_search index (max_results * 2)
  let results := raw.map toResult
  let sorted := sortDesc results
  (sorted.take max_results, elapsed_ms)

theorem insertAsc_length (x : Candidate) (l : List Candidate) :
    (insertAsc x l).length = l.length + 1 := by
  induction l with
  | nil => rfl
  | cons y ys ih =>
    unfold insertAsc
    split
    · simp [ih]
    · simp

theorem sortAsc_length (l : List Candidate) : (sortAsc l).length = l.length := by
  induction l with
  | nil => rfl
  | cons x xs ih =>
    unfold sortAsc
    rw [insertAsc_length, ih, List.length_cons]

theorem insertDesc_length (x : TopicResult) (l : List TopicResult) :
    (insertDesc x l).length = l.length + 1 := by
  induction l with
  | nil => rfl
  | cons y ys ih =>
    unfold insertDesc
    split
    · simp [ih]
    · simp

theorem sortDesc_length (l : List TopicResult) : (sortDesc l).length = l.length := by
  induction l with
  | nil => rfl
  | cons x xs ih =>
    unfold sortDesc
    rw [insertDesc_length, ih, List.length_cons]

theorem mem_insertDesc {a x : TopicResult} {l : List TopicResult} :
    a ∈ insertDesc x l → a = x ∨ a ∈ l := by
  induction l with
  | nil => intro h; simpa [insertDesc] using h
  | cons y ys ih =>
    intro h
    unfold insertDesc at h
    split at h
    · rcases List.mem_cons.mp h with h1 | h1
      · exact Or.inr (by simp [h1])
      · rcases ih h1 with h2 | h2
        · exact Or.inl h2
        · exact Or.inr (by simp [h2])
    · rcases List.mem_cons.mp h with h1 | h1
      · exact Or.inl h1
      · exact Or.inr h1

theorem insertDesc_sorted (x : TopicResult) (l : List TopicResult)
    (hl : l.Pairwise (fun a b => b.relevance_score ≤ a.relevance_score)) :
    (insertDesc x l).Pairwise (fun a b => b.relevance_score ≤ a.relevance_score) := by
  induction l with
  | nil => simpa [insertDesc] using trivial
  | cons y ys ih =>
    rcases List.pairwise_cons.mp hl with ⟨hy, hys⟩
    unfold insertDesc
    split
    · rename_i hlt
      refine List.pairwise_cons.mpr ⟨?_, ih hys⟩
      intro a ha
      rcases mem_insertDesc ha with h1 | h1
      · subst h1; exact le_of_lt hlt
      · exact hy a h1
    · rename_i hnlt
      refine List.pairwise_cons.mpr ⟨?_, hl⟩
      intro a ha
      rcases List.mem_cons.mp ha with h1 | h1
      · subst h1; exact le_of_not_lt hnlt
      · exact le_trans (hy a h1) (le_of_not_lt hnlt)

theorem sortDesc_sorted (l : List TopicResult) :
    (sortDesc l).Pairwise (fun a b => b.relevance_score ≤ a.relevance_score) := by
  induction l with
  | nil => simp [sortDesc]
  | cons x xs ih => exact insertDesc_sorted x (sortDesc xs) ih

theorem filter_insertDesc (c : ℚ) (x : TopicResult) (l : List TopicResult) :
    (insertDesc x l).filter (fun r => decide (r.relevance_score = c)) =
      if x.relevance_score = c then
        x :: l.filter (fun r => decide (r.relevance_score = c))
      else l.filter (fun r => decide (r.relevance_score = c)) := by
  induction l with
  | nil =>
    unfold insertDesc
    split <;> simp_all
  | cons y ys ih =>
    unfold insertDesc
    split
    · rename_i hlt
      rw [List.filter_cons, ih]
      by_cases hx : x.relevance_score = c
      · have hy : ¬(y.relevance_score = c) := by
          intro hyc
          rw [hx, hyc] at hlt
          exact lt_irrefl c hlt
        rw [if_pos hx, if_pos hx]
        simp [List.filter_cons, hy]
      · rw [if_neg hx, if_neg hx, List.filter_cons]
    · by_cases hx : x.relevance_score = c
      · rw [if_pos hx]
        simp [List.filter_cons, hx]
      · rw [if_neg hx]
        simp [List.filter_cons, hx]

theorem filter_sortDesc (c : ℚ) (l : List TopicResult) :
    (sortDesc l).filter (fun r => decide (r.relevance_score = c)) =
      l.filter (fun r => decide (r.relevance_score = c)) := by
  induction l with
  | nil => rfl
  | cons x xs ih =>
    unfold sortDesc
    rw [filter_insertDesc]
    by_cases hx : x.relevance_score = c
    · rw [if_pos hx, ih]
      simp [List.filter_cons, hx]
    · rw [if_neg hx, ih]
      simp [List.filter_cons, hx]

/-! ## Claim C1 — failed refresh and the previous replica -/

/-- Environment of a refresh attempt in which the remote version differs
and the snapshot download fails mid-way. -/
def c1Env : SyncEnv :=
  { kService := true, now := 100, remoteVersion := some "101", download := none }

/-- Replica state before the refresh attempt: ten chunks on disk and in the
active in-memory replica, local token `"100"`. -/
def c1State : SyncState :=
  { lastCheck := none,
    disk := ["c1", "c2", "c3", "c4", "c5", "c6", "c7", "c8", "c9", "c10"],
    active := ["c1", "c2", "c3", "c4", "c5", "c6", "c7", "c8", "c9", "c10"],
    localVersion := "100" }

/-- Claim C1, counterexample: after a refresh whose download fails mid-way,
the previously active replica's ON-DISK index directory is NOT unchanged —
`reload_chromadb_from_gcs` removes it (`shutil.rmtree`) before the download
starts, so the failed refresh leaves it empty. -/
theorem c1_counterexample :
    (reload_from_gcs_if_needed c1Env c1State).state.disk = [] ∧
    c1State.disk ≠ [] ∧
    (reload_from_gcs_if_needed c1Env c1State).state.disk ≠ c1State.disk := by
  decide

/-- Claim C1, amended: if a refresh fails partway through the snapshot
download, the in-memory active replica (hence its chunk count) and the
locally recorded version token are unchanged, but the on-disk index
directory is not preserved — it was deleted and recreated empty before the
download began. -/
theorem c1_main (env : SyncEnv) (s : SyncState) (hdl : env.download = none)
    (hks : env.kService = true) (hrl : should_check_gcs env.now s = true)
    (gv : String) (hrv : env.remoteVersion = some gv) (hne : gv ≠ s.localVersion) :
    (reload_from_gcs_if_needed env s).state.active = s.active ∧
    (reload_from_gcs_if_needed env s).state.localVersion = s.localVersion ∧
    (reload_from_gcs_if_needed env s).state.disk = [] := by
  unfold reload_from_gcs_if_needed full_reload reload_chromadb_from_gcs
    trigger_vector_store_reload
  rw [hks, hrl, hdl, hrv]
  simp only [Bool.not_true, Bool.false_eq_true, if_false]
  rw [if_pos hne]
  exact ⟨rfl, rfl, rfl⟩

/-- Claim C1, witness for the amended theorem at the concrete failing
refresh. -/
theorem c1_witness :
    (reload_from_gcs_if_needed c1Env c1State).state.active = c1State.active ∧
    (reload_from_gcs_if_needed c1Env c1State).state.localVersion = c1State.localVersion ∧
    (reload_from_gcs_if_needed c1Env c1State).state.disk = [] :=
  c1_main c1Env c1State rfl rfl (by decide) "101" rfl (by decide)

/-! ## Claim C2 — delete_content versus the chunk IDs created at indexing -/

/-- Chunk ID produced by `process_image` for content ID
`image_1700000000_abcd1234` — note the doubled `image_` prefix, because the
content ID itself already starts with the type. -/
def c2ChunkId : String := make_chunk_id "image" "image_1700000000_abcd1234" 1

/-- Indexer state after that image was indexed with one chunk. -/
def c2State : IndexerState :=
  { chunkFiles := [⟨c2ChunkId ++ ".json", "image_1700000000_abcd1234.jpg"⟩],
    contentFiles := ["image_1700000000_abcd1234.jpg"],
    summaryItems := [("image_1700000000_abcd1234", 1)],
    chroma := [c2ChunkId] }

/-- Claim C2, code bug, evaluated at the failing input: the chunk file is
named `image_image_1700000000_abcd1234_chunk1.json` (creation-time ID
`{type}_{slug(content_id)}_chunk{i}` with the type prefix doubled), so the
glob `{content_id}_chunk*.json` used by `delete_content` matches nothing;
the call returns `False` and removes nothing — in particular the index's
chunk count decreases by 0, not by `n = 1`. -/
theorem c2_main :
    c2ChunkId = "image_image_1700000000_abcd1234_chunk1" ∧
    matchesChunkGlob "image_1700000000_abcd1234" (c2ChunkId ++ ".json") = false ∧
    delete_content "image_1700000000_abcd1234" c2State = (c2State, false) ∧
    (delete_content "image_1700000000_abcd1234" c2State).1.chroma.length
      = c2State.chroma.length := by
  decide

/-! ## Claim C3 — the distance-to-relevance transform -/

/-- Claim C3: the relevance computed by `search` is exactly
`max(0, 1 - d/2)`; for L2 distances (`d ≥ 0`) both it and the stored
(3-decimal-rounded) score lie in `[0,1]`; and the transform is monotone
non-increasing in distance, both before and after rounding. -/
theorem c3_main (d a b : ℚ) :
    relevance d = max 0 (1 - d / 2) ∧
    (0 ≤ d → 0 ≤ relevance d ∧ relevance d ≤ 1 ∧
      0 ≤ relevance_score d ∧ relevance_score d ≤ 1) ∧
    (a < b → relevance b ≤ relevance a ∧ relevance_score b ≤ relevance_score a) := by
  refine ⟨rfl, fun hd => ?_, fun hab => ?_⟩
  · exact ⟨relevance_nonneg d, relevance_le_one hd,
      round3_nonneg (relevance_nonneg d), round3_le_one (relevance_le_one hd)⟩
  · exact ⟨relevance_antitone (le_of_lt hab),
      round3_mono (relevance_antitone (le_of_lt hab))⟩

/-- Claim C3, witness at `d = 1`, `a = 0 < b = 2`. -/
theorem c3_witness :
    ((0 : ℚ) ≤ 1 ∧ (0 : ℚ) < 2) ∧
    (0 ≤ relevance 1 ∧ relevance 1 ≤ 1 ∧
      0 ≤ relevance_score 1 ∧ relevance_score 1 ≤ 1) ∧
    (relevance 2 ≤ relevance 0 ∧ relevance_score 2 ≤ relevance_score 0) :=
  ⟨⟨by norm_num, by norm_num⟩,
   (c3_main 1 0 2).2.1 (by norm_num),
   (c3_main 1 0 2).2.2 (by norm_num)⟩

/-! ## Claim C4 — ordering, stability and length of search results -/

/-- Claim C4: the result list is sorted by stored relevance score in
descending order; it is the `max_results`-prefix of the stable descending
sort of the scored candidates (so candidates with equal relevance keep
their retrieval order, expressed by the filter identity over every score
value `c`); and its length is exactly `min(max_results, index size)`. -/
theorem c4_main (index : List Candidate) (k e : Nat) :
    ((search index k e).1).Pairwise
      (fun a b => b.relevance_score ≤ a.relevance_score) ∧
    ((search index k e).1).length = min k index.length ∧
    (search index k e).1 =
      (sortDesc ((vector_store_search index (k * 2)).map toResult)).take k ∧
    (∀ c : ℚ,
      (sortDesc ((vector_store_search index (k * 2)).map toResult)).filter
          (fun r => decide (r.relevance_score = c)) =
        ((vector_store_search index (k * 2)).map toResult).filter
          (fun r => decide (r.relevance_score = c))) := by
  refine ⟨?_, ?_, rfl, fun c => filter_sortDesc c _⟩
  · exact List.Pairwise.sublist (List.take_sublist k _)
      (sortDesc_sorted ((vector_store_search index (k * 2)).map toResult))
  · show ((sortDesc ((vector_store_search index (k * 2)).map toResult)).take k).length
      = min k index.length
    rw [List.length_take, sortDesc_length, List.length_map]
    unfold vector_store_search
    rw [List.length_take, sortAsc_length]
    omega

/-! ## Claim C5 — rate-limited passive checks and the force override -/

/-- Claim C5: a passive staleness check within `T = 5` seconds of the
previous one performs no remote version read and leaves the whole sync
state unchanged; a forced call (`force_reload`) on the cloud deployment
bypasses the interval — it always reads the remote marker, and whenever the
read yields a value it proceeds to the version comparison. -/
theorem c5_main (env : SyncEnv) (s : SyncState) :
    (∀ t : ℚ, s.lastCheck = some t → env.now - t < gcs_check_interval →
      reload_from_gcs_if_needed env s = ⟨s, false, false⟩) ∧
    (env.kService = true →
      (force_reload env s).remoteRead = true ∧
      (∀ gv, env.remoteVersion = some gv → (force_reload env s).compared = true)) := by
  constructor
  · intro t ht helapsed
    unfold reload_from_gcs_if_needed
    rcases hk : env.kService with _ | _
    · simp
    · have hsc : should_check_gcs env.now s = false := by
        unfold should_check_gcs
        rw [ht]
        simpa using not_le.mpr helapsed
      rw [hsc]
      simp
  · intro hk
    unfold force_reload reload_from_gcs_if_needed should_check_gcs
    rw [hk]
    simp only [Bool.not_true, Bool.false_eq_true, if_false]
    rcases env.remoteVersion with _ | gv
    · exact ⟨rfl, by intro gv h; cases h⟩
    · refine ⟨?_, ?_⟩
      · simp only
        split <;> [skip; rfl] <;> split <;> rfl
      · intro gv' hgv'
        simp only
        split <;> [skip; rfl] <;> split <;> rfl

/-- Sync environment for the C5 witness: 2 seconds elapsed since the last
check, remote version present. -/
def c5Env : SyncEnv :=
  { kService := true, now := 3, remoteVersion := some "7", download := some ["x"] }

/-- Sync state for the C5 witness. -/
def c5State : SyncState :=
  { lastCheck := some 1, disk := ["a"], active := ["a"], localVersion := "7" }

/-- Claim C5, witness at the concrete rate-limited check and forced call. -/
theorem c5_witness :
    (c5State.lastCheck = some 1 ∧ c5Env.now - 1 < gcs_check_interval ∧
      c5Env.kService = true ∧ c5Env.remoteVersion = some "7") ∧
    reload_from_gcs_if_needed c5Env c5State = ⟨c5State, false, false⟩ ∧
    (force_reload c5Env c5State).remoteRead = true ∧
    (force_reload c5Env c5State).compared = true :=
  ⟨⟨rfl, by norm_num [c5Env, gcs_check_interval], rfl, rfl⟩,
   (c5_main c5Env c5State).1 1 rfl (by norm_num [c5Env, gcs_check_interval]),
   ((c5_main c5Env c5State).2 rfl).1,
   ((c5_main c5Env c5State).2 rfl).2 "7" rfl⟩

/-! ## Claim C6 — version markers across mutations -/

/-- Claim C6, counterexample: two mutations whose clock readings fall in
the same integer second (100.2 s and 100.7 s) write the SAME marker `100`,
so the later write is not strictly greater than the earlier one. -/
theorem c6_counterexample :
    (502 / 5 : ℚ) < 1007 / 10 ∧
    version_marker (502 / 5) = 100 ∧
    version_marker (1007 / 10) = 100 ∧
    ¬ version_marker (502 / 5) < version_marker (1007 / 10) := by
  have h1 : version_marker (502 / 5 : ℚ) = 100 := by
    unfold version_marker pyInt
    rw [if_pos (by norm_num : (0 : ℚ) ≤ 502 / 5)]
    exact Int.floor_eq_iff.mpr (by norm_num)
  have h2 : version_marker (1007 / 10 : ℚ) = 100 := by
    unfold version_marker pyInt
    rw [if_pos (by norm_num : (0 : ℚ) ≤ 1007 / 10)]
    exact Int.floor_eq_iff.mpr (by norm_num)
  refine ⟨by norm_num, h1, h2, ?_⟩
  rw [h1, h2]
  exact lt_irrefl 100

/-- Claim C6, amended: markers issued from a non-decreasing clock are
monotonically NON-decreasing (`int(time.time())`); strict increase is
guaranteed only between writes at least one second apart (writes within
the same second produce equal tokens). -/
theorem c6_main (t t' : ℚ) (h0 : 0 ≤ t) :
    (t ≤ t' → version_marker t ≤ version_marker t') ∧
    (t + 1 ≤ t' → version_marker t < version_marker t') :=
  ⟨fun h => version_marker_mono h0 h, fun h => version_marker_strict h0 h⟩

/-- Claim C6, witness for the amended theorem at `t = 1`, `t' = 3`. -/
theorem c6_witness :
    ((0 : ℚ) ≤ 1) ∧ version_marker 1 ≤ version_marker 3 ∧
      version_marker 1 < version_marker 3 :=
  ⟨by norm_num,
   (c6_main 1 3 (by norm_num)).1 (by norm_num),
   (c6_main 1 3 (by norm_num)).2 (by norm_num)⟩

/-! ## Claim C7 — no rollback after the local index update -/

/-- Claim C7: once saving, summary update and the ChromaDB insert (steps
1-3) have succeeded, `index_content` returns `True` and the chunks remain
on disk, in the summary record, and in the local index, for EVERY outcome
of the remote-mirror and index-re-upload steps (4 and 5). -/
theorem c7_main (chunks : List String) (cid fname : String)
    (gcsOk chromaUploadOk : Bool) (s : IndexerState) :
    (index_content chunks cid fname true true true gcsOk chromaUploadOk s).2 = true ∧
    (index_content chunks cid fname true true true gcsOk chromaUploadOk s).1.chroma
      = s.chroma ++ chunks ∧
    (index_content chunks cid fname true true true gcsOk chromaUploadOk s).1.chunkFiles
      = s.chunkFiles ++ chunks.map (fun c => ⟨c ++ ".json", fname⟩) ∧
    (index_content chunks cid fname true true true gcsOk chromaUploadOk s).1.summaryItems
      = s.summaryItems ++ [(cid, chunks.length)] := by
  refine ⟨rfl, rfl, rfl, rfl⟩

/-! ## Claim C8 — empty or missing index -/

/-- Claim C8: when the nearest-neighbor lookup has no candidates (empty or
missing local index), `search` returns the empty result list together with
the elapsed time rather than raising. -/
theorem c8_main (k e : Nat) : search [] k e = ([], e) := by
  simp [search, vector_store_search, sortAsc, sortDesc]

/-! ## Claim C9 — no refresh outside the cloud deployment -/

/-- Claim C9: with `K_SERVICE` unset, both the passive check and the forced
refresh return without reading the remote marker and without touching the
replica (disk snapshot, active in-memory replica, local version token). -/
theorem c9_main (env : SyncEnv) (s : SyncState) (h : env.kService = false) :
    reload_from_gcs_if_needed env s = ⟨s, false, false⟩ ∧
    (force_reload env s).remoteRead = false ∧
    (force_reload env s).state.disk = s.disk ∧
    (force_reload env s).state.active = s.active ∧
    (force_reload env s).state.localVersion = s.localVersion := by
  unfold force_reload reload_from_gcs_if_needed
  rw [h]
  simp

/-- Sync environment for the C9 witness: local development (no
`K_SERVICE`). -/
def c9Env : SyncEnv :=
  { kService := false, now := 50, remoteVersion := some "9", download := some ["y"] }

/-- Sync state for the C9 witness. -/
def c9State : SyncState :=
  { lastCheck := some 1, disk := ["a", "b"], active := ["a", "b"], localVersion := "3" }

/-- Claim C9, witness at the concrete local-development environment. -/
theorem c9_witness :
    c9Env.kService = false ∧
    reload_from_gcs_if_needed c9Env c9State = ⟨c9State, false, false⟩ ∧
    (force_reload c9Env c9State).remoteRead = false ∧
    (force_reload c9Env c9State).state.disk = c9State.disk ∧
    (force_reload c9Env c9State).state.active = c9State.active ∧
    (force_reload c9Env c9State).state.localVersion = c9State.localVersion :=
  ⟨rfl, (c9_main c9Env c9State rfl).1, (c9_main c9Env c9State rfl).2.1,
   (c9_main c9Env c9State rfl).2.2.1, (c9_main c9Env c9State rfl).2.2.2.1,
   (c9_main c9Env c9State rfl).2.2.2.2⟩

/-! ## Claim C10 — termination and basic behavior of the text chunker -/

/-- Claim C10: with the pipeline's chunking parameters
(`chunk_size ∈ {500, 1000}`, `overlap = 100`) and a non-empty input, the
per-iteration advance of the chunking loop is at least
`chunk_size/2 + 1 - overlap`, which is positive (so the loop terminates —
`chunk_text` is a total function); when `len(text) ≤ chunk_size` the result
is exactly `[text]`; and every returned chunk is non-empty. -/
theorem c10_main (text : Str) (cs ov : Nat)
    (hcs : cs = 500 ∨ cs = 1000) (hov : ov = 100) (hne : text ≠ []) :
    0 < cs / 2 + 1 - ov ∧
    (∀ start : Nat,
      start + (cs / 2 + 1 - ov) ≤ chunk_next_end text cs start - ov) ∧
    (text.length ≤ cs →
      chunk_text text cs ov (by rcases hcs with h | h <;> omega)
        (by rcases hcs with h | h <;> omega) = [text]) ∧
    (∀ c ∈ chunk_text text cs ov (by rcases hcs with h | h <;> omega)
        (by rcases hcs with h | h <;> omega), c ≠ []) := by
  have hcs1 : ov < cs := by rcases hcs with h | h <;> omega
  have hcs2 : ov ≤ cs / 2 + 1 := by rcases hcs with h | h <;> omega
  refine ⟨?_, ?_, ?_, ?_⟩
  · rcases hcs with h | h <;> omega
  · intro start
    have := chunk_next_end_ge text cs start
    rcases hcs with h | h <;> omega
  · intro hlen
    unfold chunk_text
    rw [if_pos hlen]
  · intro c hc
    unfold chunk_text at hc
    by_cases hlen : text.length ≤ cs
    · rw [if_pos hlen] at hc
      rcases List.mem_singleton.mp hc with rfl
      exact hne
    · rw [if_neg hlen] at hc
      exact chunk_loop_nonempty text cs ov hcs1 hcs2 0 c hc

/-- Claim C10, witness: the single-character note chunked with
`chunk_size = 500`, `overlap = 100`. -/
theorem c10_witness :
    chunk_text ['a'] 500 100 (by norm_num) (by norm_num) = [['a']] :=
  (c10_main ['a'] 500 100 (Or.inl rfl) rfl (by decide)).2.2.1 (by decide)

end MedWatcher
